import Mathlib

/-!
Shallow embedding of the crawl orchestration core of the
Multi-Platform-Social-Media-Content-Filter repository:
`src/platforms/reddit_api.py` (`crawl_with_strategy`,
`search_filtered_hot_posts`, `extract_image_urls`) and
`src/utils/redis_helper.py` (`RedisClient.get_cache` / `set_cache`).

Modelling conventions:
* Machine timestamps (`created_utc`, the crawl start time `now`, the
  cutoff) are `Int` epoch seconds; Python `datetime` comparison of
  `fromtimestamp` values is order-isomorphic to comparison of the
  underlying epoch seconds, and `timedelta(days = d)` is `d * 86400`
  seconds.
* Fallible upstream / cache calls return `Except String`; a Python
  `try/except` around a call is a `match` on that result.
* Side effects with no data flow (`time.sleep`, `print`, `st.info`,
  `st.error`) are dropped: they do not influence any returned value.
* The Redis store is modelled post-serialization: keys map to the
  deserialized list values (JSON round-trip of these records is the
  identity, and the serialized form of a list, even `"[]"`, is a
  non-empty string, so `get_cache`'s `if not data` test only fires on
  an absent key).
* The `ThreadPoolExecutor` fan-out in `search_filtered_hot_posts`
  iterates `future_to_strategy` (a dict in insertion order), not
  completion order, and each strategy crawl is a pure function of the
  injected source handle, so the fan-out is modelled as a sequential
  `map` over the strategy list.
* Fields of a post record that no claim observes and that flow into no
  observed value (the formatted `created_date` display string, the
  `selftext_preview`, and the separately fetched `top_comments`) are
  elided from the record.
* Python's `sorted` is a stable sort; it is modelled by a stable
  insertion sort, which computes the identical output list.
-/

namespace CrawlCore

/-- A raw item as delivered by the content source client
(PRAW submission), restricted to the fields the crawl core reads.
`name` is the fullname used as the pagination cursor; `url` is absent
when the attribute is missing (`hasattr` test). -/
structure RawPost where
  id : String
  title : String
  author : Option String
  score : Int
  created_utc : Int
  selftext : String
  url : Option String
  permalink : String
  num_comments : Int
  name : String
deriving Repr, DecidableEq

/-- The normalized post record built by `crawl_with_strategy`
(the `post_data` dictionary), restricted to the fields the crawl core
observes downstream. -/
structure Post where
  id : String
  title : String
  author : String
  score : Int
  created_utc : Int
  selftext : String
  permalink : String
  image_urls : List String
  num_comments : Int
  source_platform : String
deriving Repr, DecidableEq

/-- Does `pat` lead (start) the character list `s`? -/
def charsLead : List Char → List Char → Bool
  | [], _ => true
  | _ :: _, [] => false
  | a :: as, b :: bs => a == b && charsLead as bs

/-- Does `pat` occur contiguously inside the character list `s`? -/
def charsWithin (pat : List Char) : List Char → Bool
  | [] => charsLead pat []
  | s => charsLead pat s || match s with
      | [] => false
      | _ :: rest => charsWithin pat rest

/-- Python `s.endswith(pat)`. -/
def strEndsWith (s pat : String) : Bool :=
  charsLead pat.data.reverse s.data.reverse

/-- Python `pat in s` (substring containment). -/
def strWithin (pat s : String) : Bool :=
  charsWithin pat.data s.data

/-- The image-extension whitelist of `extract_image_urls`. -/
def image_extensions : List String :=
  [".png", ".jpg", ".jpeg", ".gif", ".webp"]

/-- Embedding of `extract_image_urls` from `src/platforms/reddit_api.py`: a direct
image URL (by extension) or an Imgur album/gallery URL is collected;
the `hasattr(post, "url") and post.url` guard is the `Option` match
plus the emptiness test. -/
def extract_image_urls (post : RawPost) : List String :=
  match post.url with
  | none => []
  | some url =>
    if url == "" then []
    else if image_extensions.any (fun ext => strEndsWith url ext) then [url]
    else if strWithin "imgur.com/a/" url || strWithin "imgur.com/gallery/" url then [url]
    else []

/-- The `post_data` dictionary constructed in `crawl_with_strategy`
for a post that passed the date and score filters. -/
def makePostData (post : RawPost) : Post :=
  { id := post.id
    title := post.title
    author := post.author.getD "Unknown Author"
    score := post.score
    created_utc := post.created_utc
    selftext := post.selftext
    permalink := "https://www.reddit.com" ++ post.permalink
    image_urls := extract_image_urls post
    num_comments := post.num_comments
    source_platform := "reddit" }

/-- The injected content source handle (PRAW `Subreddit`): one
paginated listing call per sort mode. Arguments: time filter (for
`top`), per-call limit, pagination cursor (`after`). A transport/API
exception is an `error` result. -/
structure Subreddit where
  top : String → Nat → Option String → Except String (List RawPost)
  hot : Nat → Option String → Except String (List RawPost)
  new : Nat → Option String → Except String (List RawPost)

/-- Python truthiness of the optional `time_filter` string:
`None` and the empty string are falsy. -/
def optStrTruthy : Option String → Bool
  | none => false
  | some s => s != ""

/-- The page-fetch block of `crawl_with_strategy`: dispatch on
`sort_type` / `time_filter`, and convert any exception into an empty
page (`except Exception: posts = []`). -/
def fetchPosts (subreddit : Subreddit) (sort_type : String)
    (time_filter : Option String) (current_limit : Nat)
    (after : Option String) : List RawPost :=
  let result :=
    if sort_type == "top" && optStrTruthy time_filter then
      subreddit.top (time_filter.getD "") current_limit after
    else if sort_type == "hot" then
      subreddit.hot current_limit after
    else
      subreddit.new current_limit after
  match result with
  | .ok ps => ps
  | .error _ => []

/-- The `for post in posts` body of `crawl_with_strategy`: scan the
page in source order, tracking the running oldest timestamp
(`batch_oldest`); an in-window item marks the page valid and, if it
also meets the score threshold, appends its `post_data`; at an
out-of-window item the scan breaks as soon as the running oldest is
below the cutoff (which, since the running oldest includes the current
item, is immediately). Returns the grown accumulator and
`batch_has_valid`. -/
def processPosts (cutoff_date min_upvotes : Int) :
    List RawPost → Option Int → Bool → List Post → List Post × Bool
  | [], _, batch_has_valid, acc => (acc, batch_has_valid)
  | post :: rest, batch_oldest, batch_has_valid, acc =>
    let post_created := post.created_utc
    let oldest := match batch_oldest with
      | none => post_created
      | some o => min o post_created
    if cutoff_date ≤ post_created then
      let acc := if min_upvotes ≤ post.score then acc ++ [makePostData post] else acc
      processPosts cutoff_date min_upvotes rest (some oldest) true acc
    else
      if oldest < cutoff_date then (acc, batch_has_valid)
      else processPosts cutoff_date min_upvotes rest (some oldest) batch_has_valid acc

/-- The mutable loop state of `crawl_with_strategy`:
collected posts, pagination cursor, iteration counter, and the
consecutive no-valid-page counter. -/
structure CrawlState where
  batch_posts : List Post
  after : Option String
  safety_counter : Nat
  no_valid_count : Nat
deriving Repr

/-- One iteration of the `while` body of `crawl_with_strategy`:
fetch a page of size `min(100, remaining)`; an empty page increments
`no_valid_count` and leaves the cursor unchanged (`continue`);
otherwise the page is scanned, `no_valid_count` resets to 0 exactly
when the scan saw an in-window item, and the cursor advances to the
last item's fullname. -/
def crawlStep (subreddit : Subreddit) (sort_type : String)
    (time_filter : Option String) (cutoff_date min_upvotes : Int)
    (limit : Nat) (st : CrawlState) : CrawlState :=
  let remaining := limit - st.batch_posts.length
  let current_limit := min 100 remaining
  let posts := fetchPosts subreddit sort_type time_filter current_limit st.after
  match posts with
  | [] =>
    { st with safety_counter := st.safety_counter + 1
              no_valid_count := st.no_valid_count + 1 }
  | _ :: _ =>
    let scanned := processPosts cutoff_date min_upvotes posts none false st.batch_posts
    { batch_posts := scanned.1
      after := posts.getLast?.map RawPost.name
      safety_counter := st.safety_counter + 1
      no_valid_count := if scanned.2 then 0 else st.no_valid_count + 1 }

/-- The `while` loop of `crawl_with_strategy`. The Python guard
`safety_counter < max_iterations` is rendered as structural fuel:
the loop is entered with `fuel = max_iterations` and
`safety_counter = 0`, and every iteration consumes one unit of fuel
while incrementing `safety_counter`, so `fuel > 0` at each entry is
exactly `safety_counter < max_iterations`. -/
def crawlLoop (subreddit : Subreddit) (sort_type : String)
    (time_filter : Option String) (cutoff_date min_upvotes : Int)
    (limit max_no_valid : Nat) : Nat → CrawlState → CrawlState
  | 0, st => st
  | fuel + 1, st =>
    if st.batch_posts.length < limit ∧ st.no_valid_count < max_no_valid then
      crawlLoop subreddit sort_type time_filter cutoff_date min_upvotes
        limit max_no_valid fuel
        (crawlStep subreddit sort_type time_filter cutoff_date min_upvotes limit st)
    else st

/-- Embedding of `crawl_with_strategy` from `src/platforms/reddit_api.py`, returning
the full final loop state (`crawl_with_strategy` itself returns its
`batch_posts` field). The iteration cap is 60 (lenient,
`min_upvotes ≤ 50`) or 30 (strict); the no-valid-page cap is 6 or 5. -/
def crawlWithStrategyState (subreddit : Subreddit) (sort_type : String)
    (time_filter : Option String) (cutoff_date min_upvotes : Int)
    (limit : Nat) : CrawlState :=
  let max_iterations : Nat := if min_upvotes ≤ 50 then 60 else 30
  let max_no_valid : Nat := if min_upvotes ≤ 50 then 6 else 5
  crawlLoop subreddit sort_type time_filter cutoff_date min_upvotes
    limit max_no_valid max_iterations
    { batch_posts := [], after := none, safety_counter := 0, no_valid_count := 0 }

/-- The return value of `crawl_with_strategy`: the collected posts. -/
def crawl_with_strategy (subreddit : Subreddit) (sort_type : String)
    (time_filter : Option String) (cutoff_date min_upvotes : Int)
    (limit : Nat) : List Post :=
  (crawlWithStrategyState subreddit sort_type time_filter cutoff_date
    min_upvotes limit).batch_posts

/-- Strategy selection in `search_filtered_hot_posts`: a pure function
of `time_range_days` (30 days fans out to top-of-month plus hot plus
new; 1 and 7 days use a single top strategy with the matching time
filter; anything else falls back to new). -/
def selectStrategies (time_range_days : Int) : List (String × Option String) :=
  if time_range_days == 30 then
    [("top", some "month"), ("hot", none), ("new", none)]
  else if time_range_days == 1 then [("top", some "day")]
  else if time_range_days == 7 then [("top", some "week")]
  else [("new", none)]

/-- One step of the deduplicating merge: the `if post["id"] not in
all_posts: all_posts[post["id"]] = post` insertion into the
insertion-ordered dict, viewed as its ordered value list. -/
def dedupInsert (acc : List Post) (p : Post) : List Post :=
  if acc.any (fun q => q.id == p.id) then acc else acc ++ [p]

/-- The full deduplicating merge over the concatenated strategy
outputs: first occurrence of each `id` wins, order of first
occurrence preserved (`list(all_posts.values())`). -/
def dedupById (posts : List Post) : List Post :=
  posts.foldl dedupInsert []

/-- Stable insertion of a post into a score-descending list:
the post goes after every earlier item whose score is at least its
own, before the first strictly smaller one. -/
def insertDesc (p : Post) : List Post → List Post
  | [] => [p]
  | q :: rest => if q.score < p.score then p :: q :: rest else q :: insertDesc p rest

/-- Python `sorted(candidate_posts, key=lambda x: x["score"],
reverse=True)`: a stable descending sort by score (Python's sort is
stable, and a stable insertion sort computes the identical list). -/
def sortByScoreDesc (posts : List Post) : List Post :=
  posts.foldl (fun acc p => insertDesc p acc) []

/-- The merge / sort / truncate tail of `search_filtered_hot_posts`:
deduplicate the concatenated per-strategy batches by `id` into
`candidate_posts`, sort by score descending, then truncate to `limit`
when over it. -/
def mergeResults (batches : List (List Post)) (limit : Nat) : List Post :=
  if limit < (sortByScoreDesc (dedupById batches.flatten)).length then
    (sortByScoreDesc (dedupById batches.flatten)).take limit
  else sortByScoreDesc (dedupById batches.flatten)

/-- The Redis cache, post-serialization: `available = false` models a
cache store whose every operation raises (connection failure); `store`
maps unexpired keys to their deserialized list values, absent or
expired keys to `none`. -/
structure RedisState where
  available : Bool
  store : String → Option (List Post)

/-- Embedding of `RedisClient.get_cache`: raises when the store is unavailable;
otherwise an absent key is `None` and a present key deserializes to
its stored list (the serialized form of a list is a non-empty string,
so the `if not data` test only fires on an absent key — a cached
empty list round-trips as `some []`, not `none`). -/
def get_cache (r : RedisState) (key : String) :
    Except String (Option (List Post)) :=
  if r.available then
    match r.store key with
    | none => .ok none
    | some v => .ok (some v)
  else .error "connection error"

/-- Embedding of `RedisClient.set_cache`: raises when the store is unavailable;
otherwise a whole-entry replacement of the key's value (with the
configured TTL). -/
def set_cache (r : RedisState) (key : String) (v : List Post) :
    Except String RedisState :=
  if r.available then
    .ok { r with store := fun k => if k == key then some v else r.store k }
  else .error "connection error"

/-- Python truthiness of `cached_data` in `search_filtered_hot_posts`:
`None` and an empty list are both falsy, a non-empty list is truthy. -/
def pyTruthy : Option (List Post) → Bool
  | none => false
  | some l => !l.isEmpty

/-- The cache key `f"reddit:{subreddit_name}:{time_range_days}:{min_upvotes}:{limit}"`. -/
def cacheKey (subreddit_name : String) (time_range_days min_upvotes : Int)
    (limit : Nat) : String :=
  "reddit:" ++ subreddit_name ++ ":" ++ toString time_range_days ++ ":" ++
    toString min_upvotes ++ ":" ++ toString limit

/-- The observable outcome of one `search_filtered_hot_posts` call:
the value handed to the caller (`error` = an exception propagated out
of the function), the cache state afterwards, and whether the content
source was consulted (a crawl was performed). -/
structure SearchOutcome where
  result : Except String (List Post)
  cache : RedisState
  crawled : Bool

/-- The strategy fan-out of `search_filtered_hot_posts`: run
`crawl_with_strategy` for each strategy selected for
`time_range_days`, against the cutoff `now − time_range_days·86400`,
collecting the per-strategy batches in strategy order. -/
def crawlBatches (subreddit : Subreddit) (now : Int)
    (time_range_days min_upvotes : Int) (limit : Nat) : List (List Post) :=
  (selectStrategies time_range_days).map fun s =>
    crawl_with_strategy subreddit s.1 s.2 (now - time_range_days * 86400)
      min_upvotes limit

/-- Embedding of `search_filtered_hot_posts` from `src/platforms/reddit_api.py`.
The cache lookup and the `if cached_data` test sit before the `try`
block, so a raising cache read propagates; a truthy (non-empty) cached
value is returned without crawling; otherwise the selected strategy
crawls run (`crawlBatches`), their outputs are merged, sorted,
truncated (`mergeResults`), cached and returned — and any exception
inside the `try` (here: a raising cache write) is caught and turned
into `[]`. -/
def search_filtered_hot_posts (subreddit : Subreddit) (now : Int)
    (cache : RedisState) (subreddit_name : String)
    (time_range_days min_upvotes : Int) (limit : Nat) : SearchOutcome :=
  match get_cache cache
      (cacheKey subreddit_name time_range_days min_upvotes limit) with
  | .error e => { result := .error e, cache := cache, crawled := false }
  | .ok cached_data =>
    if pyTruthy cached_data then
      { result := .ok (cached_data.getD []), cache := cache, crawled := false }
    else
      match set_cache cache
          (cacheKey subreddit_name time_range_days min_upvotes limit)
          (mergeResults
            (crawlBatches subreddit now time_range_days min_upvotes limit)
            limit) with
      | .error _ => { result := .ok [], cache := cache, crawled := true }
      | .ok cache2 =>
        { result := .ok (mergeResults
            (crawlBatches subreddit now time_range_days min_upvotes limit)
            limit)
          cache := cache2
          crawled := true }

/-! Concrete instances used to evaluate the embedding on closed inputs. -/

/-- A source whose every listing call raises (upstream down). -/
def errSub : Subreddit :=
  { top := fun _ _ _ => .error "boom"
    hot := fun _ _ => .error "boom"
    new := fun _ _ => .error "boom" }

/-- A single in-window, high-score raw post (score 100,
created at epoch second 1000). -/
def goodRaw : RawPost :=
  { id := "p1", title := "t", author := some "a", score := 100,
    created_utc := 1000, selftext := "", url := none,
    permalink := "/r/x/1", num_comments := 3, name := "t3_p1" }

/-- A source answering every listing call with the single page
`[goodRaw]`. -/
def oneSub : Subreddit :=
  { top := fun _ _ _ => .ok [goodRaw]
    hot := fun _ _ => .ok [goodRaw]
    new := fun _ _ => .ok [goodRaw] }

/-- An available cache with nothing stored. -/
def emptyCache : RedisState := { available := true, store := fun _ => none }

/-- An available cache holding a cached empty result for the query
(subreddit "x", 1 day, min upvotes 0, limit 5). -/
def cacheWithEmpty : RedisState :=
  { available := true
    store := fun k => if k == cacheKey "x" 1 0 5 then some [] else none }

/-- An unavailable cache store: every get/set raises. -/
def downCache : RedisState := { available := false, store := fun _ => none }

/-- A raw post older than cutoff 100 (created at 50). -/
def oldRaw : RawPost :=
  { id := "old", title := "t", author := none, score := 100,
    created_utc := 50, selftext := "", url := none,
    permalink := "/r/x/o", num_comments := 0, name := "t3_old" }

/-- A raw post inside cutoff 100 (created at 150). -/
def newRaw : RawPost :=
  { id := "new", title := "t", author := none, score := 100,
    created_utc := 150, selftext := "", url := none,
    permalink := "/r/x/n", num_comments := 0, name := "t3_new" }

/-- A page whose first item is out of window but whose second item is
in window (with respect to cutoff 100). -/
def mixedPage : List RawPost := [oldRaw, newRaw]

/-- A source answering every listing call with `mixedPage`. -/
def mixedSub : Subreddit :=
  { top := fun _ _ _ => .ok mixedPage
    hot := fun _ _ => .ok mixedPage
    new := fun _ _ => .ok mixedPage }

/-- The initial loop state of `crawl_with_strategy`. -/
def st0 : CrawlState :=
  { batch_posts := [], after := none, safety_counter := 0, no_valid_count := 0 }

/-! Lemmas about the per-strategy crawler. -/

/-- Every post the page scan adds to the accumulator was built from an
in-window raw item meeting the score threshold. -/
theorem processPosts_mem (cutoff m : Int) :
    ∀ (posts : List RawPost) (o : Option Int) (hv : Bool) (acc : List Post),
      ∀ p ∈ (processPosts cutoff m posts o hv acc).1,
        p ∈ acc ∨ (cutoff ≤ p.created_utc ∧ m ≤ p.score) := by
  intro posts
  induction posts with
  | nil => intro o hv acc p hp; exact Or.inl hp
  | cons post rest ih =>
    intro o hv acc p hp
    simp only [processPosts] at hp
    by_cases hc : cutoff ≤ post.created_utc
    · rw [if_pos hc] at hp
      by_cases hs : m ≤ post.score
      · rw [if_pos hs] at hp
        rcases ih _ _ _ p hp with h | h
        · rcases List.mem_append.mp h with h | h
          · exact Or.inl h
          · refine Or.inr ?_
            rcases List.mem_singleton.mp h with rfl
            exact ⟨hc, hs⟩
        · exact Or.inr h
      · rw [if_neg hs] at hp
        exact ih _ _ _ p hp
    · rw [if_neg hc] at hp
      split at hp
      · exact Or.inl hp
      · exact ih _ _ _ p hp

/-- Once the page scan has seen an in-window item, `batch_has_valid`
stays `true`. -/
theorem processPosts_snd_true (cutoff m : Int) :
    ∀ (posts : List RawPost) (o : Option Int) (acc : List Post),
      (processPosts cutoff m posts o true acc).2 = true := by
  intro posts
  induction posts with
  | nil => intro o acc; rfl
  | cons post rest ih =>
    intro o acc
    simp only [processPosts]
    by_cases hc : cutoff ≤ post.created_utc
    · rw [if_pos hc]
      exact ih _ _
    · rw [if_neg hc]
      split
      · rfl
      · exact ih _ _

/-- One crawl iteration only adds in-window, score-qualifying posts to
the batch. -/
theorem crawlStep_mem (subreddit : Subreddit) (sort_type : String)
    (time_filter : Option String) (cutoff m : Int) (limit : Nat)
    (st : CrawlState)
    (hinv : ∀ p ∈ st.batch_posts, cutoff ≤ p.created_utc ∧ m ≤ p.score) :
    ∀ p ∈ (crawlStep subreddit sort_type time_filter cutoff m limit st).batch_posts,
      cutoff ≤ p.created_utc ∧ m ≤ p.score := by
  intro p hp
  simp only [crawlStep] at hp
  cases hfetch : fetchPosts subreddit sort_type time_filter
      (min 100 (limit - st.batch_posts.length)) st.after with
  | nil =>
    rw [hfetch] at hp
    exact hinv p hp
  | cons q qs =>
    rw [hfetch] at hp
    simp only at hp
    rcases processPosts_mem cutoff m (q :: qs) none false st.batch_posts p hp with h | h
    · exact hinv p h
    · exact h

/-- The crawl loop only ever adds in-window, score-qualifying posts. -/
theorem crawlLoop_mem (subreddit : Subreddit) (sort_type : String)
    (time_filter : Option String) (cutoff m : Int) (limit max_no_valid : Nat) :
    ∀ (fuel : Nat) (st : CrawlState),
      (∀ p ∈ st.batch_posts, cutoff ≤ p.created_utc ∧ m ≤ p.score) →
      ∀ p ∈ (crawlLoop subreddit sort_type time_filter cutoff m limit
          max_no_valid fuel st).batch_posts,
        cutoff ≤ p.created_utc ∧ m ≤ p.score := by
  intro fuel
  induction fuel with
  | zero => intro st hinv p hp; exact hinv p hp
  | succ fuel ih =>
    intro st hinv p hp
    simp only [crawlLoop] at hp
    by_cases hguard : st.batch_posts.length < limit ∧ st.no_valid_count < max_no_valid
    · rw [if_pos hguard] at hp
      exact ih _ (crawlStep_mem subreddit sort_type time_filter cutoff m limit st hinv) p hp
    · rw [if_neg hguard] at hp
      exact hinv p hp

/-- Every post returned by `crawl_with_strategy` is in window and meets
the score threshold. -/
theorem crawl_with_strategy_mem (subreddit : Subreddit) (sort_type : String)
    (time_filter : Option String) (cutoff m : Int) (limit : Nat) :
    ∀ p ∈ crawl_with_strategy subreddit sort_type time_filter cutoff m limit,
      cutoff ≤ p.created_utc ∧ m ≤ p.score := by
  intro p hp
  exact crawlLoop_mem subreddit sort_type time_filter cutoff m limit _ _ _
    (by intro q hq; simp at hq) p hp

/-! Lemmas about the deduplicating merge and the stable sort. -/

/-- Membership after one dedup insertion. -/
theorem dedupInsert_subset (acc : List Post) (q p : Post)
    (h : p ∈ dedupInsert acc q) : p ∈ acc ∨ p = q := by
  unfold dedupInsert at h
  split at h
  · exact Or.inl h
  · rcases List.mem_append.mp h with h | h
    · exact Or.inl h
    · exact Or.inr (List.mem_singleton.mp h)

/-- Membership in the folded dedup accumulator comes from the
accumulator or the processed list. -/
theorem foldl_dedupInsert_subset :
    ∀ (l acc : List Post) (p : Post),
      p ∈ l.foldl dedupInsert acc → p ∈ acc ∨ p ∈ l := by
  intro l
  induction l with
  | nil => intro acc p h; exact Or.inl h
  | cons q rest ih =>
    intro acc p h
    rcases ih (dedupInsert acc q) p h with h | h
    · rcases dedupInsert_subset acc q p h with h | rfl
      · exact Or.inl h
      · exact Or.inr (List.mem_cons_self _ _)
    · exact Or.inr (List.mem_cons_of_mem _ h)

/-- The deduplicated merge is a subset of its input. -/
theorem dedupById_subset (l : List Post) (p : Post)
    (h : p ∈ dedupById l) : p ∈ l := by
  rcases foldl_dedupInsert_subset l [] p h with h | h
  · simp at h
  · exact h

/-- One dedup insertion preserves distinctness of ids. -/
theorem dedupInsert_nodup (acc : List Post) (q : Post)
    (h : (acc.map Post.id).Nodup) : ((dedupInsert acc q).map Post.id).Nodup := by
  unfold dedupInsert
  split
  · exact h
  · rename_i hany
    rw [List.map_append]
    rw [List.nodup_append]
    refine ⟨h, List.nodup_singleton _, ?_⟩
    intro x hx
    simp only [List.map_cons, List.map_nil, List.mem_singleton]
    intro hxq
    rcases List.mem_map.mp hx with ⟨r, hr, hrx⟩
    apply hany
    refine List.any_eq_true.mpr ⟨r, hr, ?_⟩
    rw [beq_iff_eq, hrx, hxq]

/-- Folding dedup insertions preserves distinctness of ids. -/
theorem foldl_dedupInsert_nodup :
    ∀ (l acc : List Post), (acc.map Post.id).Nodup →
      ((l.foldl dedupInsert acc).map Post.id).Nodup := by
  intro l
  induction l with
  | nil => intro acc h; exact h
  | cons q rest ih =>
    intro acc h
    exact ih _ (dedupInsert_nodup acc q h)

/-- Ids are pairwise distinct after the deduplicating merge. -/
theorem dedupById_ids_nodup (l : List Post) :
    ((dedupById l).map Post.id).Nodup :=
  foldl_dedupInsert_nodup l [] (by simp)

/-- Stable insertion permutes to consing. -/
theorem insertDesc_perm (p : Post) : ∀ l : List Post, (insertDesc p l).Perm (p :: l) := by
  intro l
  induction l with
  | nil => rfl
  | cons q rest ih =>
    unfold insertDesc
    split
    · rfl
    · exact (ih.cons q).trans (List.Perm.swap p q rest)

/-- The folded stable sort permutes to the input followed by the
initial accumulator. -/
theorem foldl_insertDesc_perm :
    ∀ (l acc : List Post),
      (l.foldl (fun a q => insertDesc q a) acc).Perm (l ++ acc) := by
  intro l
  induction l with
  | nil => intro acc; simp
  | cons p rest ih =>
    intro acc
    exact ((ih _).trans
      (List.Perm.append_left rest (insertDesc_perm p acc))).trans List.perm_middle

/-- The stable descending sort is a permutation of its input. -/
theorem sortByScoreDesc_perm (l : List Post) : (sortByScoreDesc l).Perm l := by
  have h := foldl_insertDesc_perm l []
  rw [List.append_nil] at h
  exact h

/-- Stable insertion preserves descending order by score. -/
theorem insertDesc_pairwise (p : Post) :
    ∀ l : List Post, l.Pairwise (fun a b => b.score ≤ a.score) →
      (insertDesc p l).Pairwise (fun a b => b.score ≤ a.score) := by
  intro l
  induction l with
  | nil => intro _; simp [insertDesc]
  | cons q rest ih =>
    intro h
    rcases List.pairwise_cons.mp h with ⟨hq, hrest⟩
    unfold insertDesc
    split
    · rename_i hlt
      refine List.pairwise_cons.mpr ⟨?_, h⟩
      intro x hx
      rcases List.mem_cons.mp hx with rfl | hx
      · exact le_of_lt hlt
      · exact le_trans (hq x hx) (le_of_lt hlt)
    · rename_i hnlt
      refine List.pairwise_cons.mpr ⟨?_, ih hrest⟩
      intro x hx
      rcases List.mem_cons.mp ((insertDesc_perm p rest).mem_iff.mp hx) with rfl | h1
      · exact le_of_not_lt hnlt
      · exact hq x h1

/-- The stable descending sort sorts by score, descending. -/
theorem sortByScoreDesc_pairwise (l : List Post) :
    (sortByScoreDesc l).Pairwise (fun a b => b.score ≤ a.score) := by
  unfold sortByScoreDesc
  have h : ∀ (xs acc : List Post),
      acc.Pairwise (fun a b => b.score ≤ a.score) →
      (xs.foldl (fun a q => insertDesc q a) acc).Pairwise
        (fun a b => b.score ≤ a.score) := by
    intro xs
    induction xs with
    | nil => intro acc hacc; exact hacc
    | cons p rest ih => intro acc hacc; exact ih _ (insertDesc_pairwise p acc hacc)
  exact h l [] (List.Pairwise.nil)

/-! Lemmas about the merge / sort / truncate tail. -/

/-- Every merged post comes from some strategy batch. -/
theorem mergeResults_subset (batches : List (List Post)) (limit : Nat)
    (p : Post) (h : p ∈ mergeResults batches limit) : p ∈ batches.flatten := by
  unfold mergeResults at h
  have hsorted : p ∈ sortByScoreDesc (dedupById batches.flatten) := by
    split at h
    · exact List.mem_of_mem_take h
    · exact h
  exact dedupById_subset _ p
    ((sortByScoreDesc_perm (dedupById batches.flatten)).mem_iff.mp hsorted)

/-- The merged output never exceeds the limit. -/
theorem mergeResults_length_le (batches : List (List Post)) (limit : Nat) :
    (mergeResults batches limit).length ≤ limit := by
  unfold mergeResults
  split
  · exact List.length_take_le _ _
  · rename_i hnlt
    exact le_of_not_lt hnlt

/-- The merged output is sorted by score, descending. -/
theorem mergeResults_pairwise (batches : List (List Post)) (limit : Nat) :
    (mergeResults batches limit).Pairwise (fun a b => b.score ≤ a.score) := by
  unfold mergeResults
  split
  · exact (sortByScoreDesc_pairwise _).sublist (List.take_sublist _ _)
  · exact sortByScoreDesc_pairwise _

/-- Ids are pairwise distinct in the merged output. -/
theorem mergeResults_ids_nodup (batches : List (List Post)) (limit : Nat) :
    ((mergeResults batches limit).map Post.id).Nodup := by
  unfold mergeResults
  have hs : ((sortByScoreDesc (dedupById batches.flatten)).map Post.id).Nodup := by
    refine ((sortByScoreDesc_perm (dedupById batches.flatten)).map Post.id).symm.nodup ?_
    exact dedupById_ids_nodup _
  split
  · exact hs.sublist ((List.take_sublist _ _).map Post.id)
  · exact hs

/-! Lemmas about the orchestrating entry point. -/

/-- When a call of `search_filtered_hot_posts` performed a crawl, its
result is either `[]` (the cache write raised and was swallowed) or
the merged, sorted, truncated union of the selected strategy crawls. -/
theorem search_result_cases (subreddit : Subreddit) (now : Int)
    (cache : RedisState) (nm : String) (d m : Int) (l : Nat)
    (h : (search_filtered_hot_posts subreddit now cache nm d m l).crawled = true) :
    (search_filtered_hot_posts subreddit now cache nm d m l).result = .ok [] ∨
    (search_filtered_hot_posts subreddit now cache nm d m l).result =
      .ok (mergeResults (crawlBatches subreddit now d m l) l) := by
  unfold search_filtered_hot_posts at *
  cases hg : get_cache cache (cacheKey nm d m l) with
  | error e =>
    rw [hg] at h
    simp at h
  | ok cached =>
    rw [hg] at h
    dsimp only at h ⊢
    by_cases ht : pyTruthy cached
    · simp only [if_pos ht] at h
      simp at h
    · simp only [if_neg ht]
      cases hs : set_cache cache (cacheKey nm d m l)
          (mergeResults (crawlBatches subreddit now d m l) l) with
      | error e => exact Or.inl rfl
      | ok cache2 => exact Or.inr rfl

/-- Every post from some strategy batch of a crawl is in window and
meets the score threshold. -/
theorem crawlBatches_mem (subreddit : Subreddit) (now d m : Int) (l : Nat)
    (p : Post) (hp : p ∈ (crawlBatches subreddit now d m l).flatten) :
    now - d * 86400 ≤ p.created_utc ∧ m ≤ p.score := by
  unfold crawlBatches at hp
  rcases List.mem_flatten.mp hp with ⟨b, hb, hpb⟩
  rcases List.mem_map.mp hb with ⟨s, hs, rfl⟩
  exact crawl_with_strategy_mem subreddit s.1 s.2 (now - d * 86400) m l p hpb

/-- Every post a crawling call of `search_filtered_hot_posts` returns
is in window and meets the score threshold. -/
theorem search_ok_mem (subreddit : Subreddit) (now : Int) (cache : RedisState)
    (nm : String) (d m : Int) (l : Nat) (res : List Post)
    (hc : (search_filtered_hot_posts subreddit now cache nm d m l).crawled = true)
    (hr : (search_filtered_hot_posts subreddit now cache nm d m l).result = .ok res)
    (p : Post) (hp : p ∈ res) :
    now - d * 86400 ≤ p.created_utc ∧ m ≤ p.score := by
  rcases search_result_cases subreddit now cache nm d m l hc with h | h
  · rw [hr] at h
    injection h with h
    subst h
    simp at hp
  · rw [hr] at h
    injection h with h
    subst h
    exact crawlBatches_mem subreddit now d m l p
      (mergeResults_subset _ _ p hp)

/-! The claims. -/

/-- C3: every item returned by a crawling call of
`search_filtered_hot_posts` has its creation timestamp at or after the
cutoff `now − time_range_days·86400`; no out-of-window item is ever
included. -/
theorem returned_in_window (subreddit : Subreddit) (now : Int)
    (cache : RedisState) (nm : String) (d m : Int) (l : Nat) (res : List Post)
    (hc : (search_filtered_hot_posts subreddit now cache nm d m l).crawled = true)
    (hr : (search_filtered_hot_posts subreddit now cache nm d m l).result = .ok res)
    (p : Post) (hp : p ∈ res) :
    now - d * 86400 ≤ p.created_utc :=
  (search_ok_mem subreddit now cache nm d m l res hc hr p hp).1

/-- Witness for C3 at a concrete source, query and post. -/
theorem returned_in_window_witness :
    (1000 : Int) - 1 * 86400 ≤ (makePostData goodRaw).created_utc :=
  returned_in_window oneSub 1000 emptyCache "x" 1 0 1 [makePostData goodRaw]
    (by decide) rfl (makePostData goodRaw) (List.mem_singleton.mpr rfl)

/-- C7: every item returned by a crawling call of
`search_filtered_hot_posts` meets the score threshold
`score ≥ min_upvotes`. -/
theorem returned_meet_score (subreddit : Subreddit) (now : Int)
    (cache : RedisState) (nm : String) (d m : Int) (l : Nat) (res : List Post)
    (hc : (search_filtered_hot_posts subreddit now cache nm d m l).crawled = true)
    (hr : (search_filtered_hot_posts subreddit now cache nm d m l).result = .ok res)
    (p : Post) (hp : p ∈ res) :
    m ≤ p.score :=
  (search_ok_mem subreddit now cache nm d m l res hc hr p hp).2

/-- Witness for C7 at a concrete source, query and post. -/
theorem returned_meet_score_witness :
    (0 : Int) ≤ (makePostData goodRaw).score :=
  returned_meet_score oneSub 1000 emptyCache "x" 1 0 1 [makePostData goodRaw]
    (by decide) rfl (makePostData goodRaw) (List.mem_singleton.mpr rfl)

/-- C8: the sequence returned by a crawling call of
`search_filtered_hot_posts` has length at most the query's limit and
is sorted by score in descending order. -/
theorem limit_bound_and_sorted (subreddit : Subreddit) (now : Int)
    (cache : RedisState) (nm : String) (d m : Int) (l : Nat) (res : List Post)
    (hc : (search_filtered_hot_posts subreddit now cache nm d m l).crawled = true)
    (hr : (search_filtered_hot_posts subreddit now cache nm d m l).result = .ok res) :
    res.length ≤ l ∧ res.Pairwise (fun a b => b.score ≤ a.score) := by
  rcases search_result_cases subreddit now cache nm d m l hc with h | h
  · rw [hr] at h
    injection h with h
    subst h
    exact ⟨Nat.zero_le l, List.Pairwise.nil⟩
  · rw [hr] at h
    injection h with h
    subst h
    exact ⟨mergeResults_length_le _ _, mergeResults_pairwise _ _⟩

/-- Witness for C8 at a concrete source and query. -/
theorem limit_bound_and_sorted_witness :
    ([makePostData goodRaw] : List Post).length ≤ 1 ∧
    List.Pairwise (fun a b : Post => b.score ≤ a.score) [makePostData goodRaw] :=
  limit_bound_and_sorted oneSub 1000 emptyCache "x" 1 0 1 [makePostData goodRaw]
    (by decide) rfl

/-- C5: for any collection of per-strategy result sequences, even with
repeated ids across strategies, the merged output (`mergeResults`, the
merge of `search_filtered_hot_posts`) contains each id exactly once;
consequently ids are pairwise distinct in the sequence a crawling call
of `search_filtered_hot_posts` returns. -/
theorem merged_output_ids_unique :
    (∀ (batches : List (List Post)) (limit : Nat),
      ((mergeResults batches limit).map Post.id).Nodup) ∧
    (∀ (subreddit : Subreddit) (now : Int) (cache : RedisState) (nm : String)
      (d m : Int) (l : Nat) (res : List Post),
      (search_filtered_hot_posts subreddit now cache nm d m l).crawled = true →
      (search_filtered_hot_posts subreddit now cache nm d m l).result = .ok res →
      (res.map Post.id).Nodup) := by
  refine ⟨mergeResults_ids_nodup, ?_⟩
  intro subreddit now cache nm d m l res hc hr
  rcases search_result_cases subreddit now cache nm d m l hc with h | h
  · rw [hr] at h
    injection h with h
    subst h
    simp
  · rw [hr] at h
    injection h with h
    subst h
    exact mergeResults_ids_nodup _ _

/-- Witness for C5 at a concrete source and query. -/
theorem merged_output_ids_unique_witness :
    (([makePostData goodRaw] : List Post).map Post.id).Nodup :=
  merged_output_ids_unique.2 oneSub 1000 emptyCache "x" 1 0 1
    [makePostData goodRaw] (by decide) rfl

/-- C6: strategy selection is a pure, deterministic function of
`time_range_days`: 1 day gives top/day, 7 days top/week, 30 days
top/month then hot then new, and any other value new only. -/
theorem strategy_selection_det :
    selectStrategies 1 = [("top", some "day")] ∧
    selectStrategies 7 = [("top", some "week")] ∧
    selectStrategies 30 = [("top", some "month"), ("hot", none), ("new", none)] ∧
    ∀ d : Int, d ≠ 1 → d ≠ 7 → d ≠ 30 → selectStrategies d = [("new", none)] := by
  refine ⟨rfl, rfl, rfl, ?_⟩
  intro d h1 h7 h30
  unfold selectStrategies
  rw [if_neg (by simp [h30]), if_neg (by simp [h1]), if_neg (by simp [h7])]

/-- Witness for C6 at the unrecognized window of 14 days. -/
theorem strategy_selection_det_witness :
    selectStrategies 14 = [("new", none)] :=
  strategy_selection_det.2.2.2 14 (by decide) (by decide) (by decide)

/-- C10: `extract_image_urls` yields at most one URL; it is a
singleton exactly when the post's url ends in one of the extensions
.png/.jpg/.jpeg/.gif/.webp or contains an imgur.com album/gallery
path, and is empty otherwise — never a multi-element sequence. -/
theorem image_urls_at_most_one (post : RawPost) :
    (extract_image_urls post).length ≤ 1 ∧
    ((extract_image_urls post).length = 1 ↔
      (image_extensions.any (fun ext => strEndsWith (post.url.getD "") ext) ||
       (strWithin "imgur.com/a/" (post.url.getD "") ||
        strWithin "imgur.com/gallery/" (post.url.getD ""))) = true) := by
  unfold extract_image_urls
  cases hu : post.url with
  | none => exact ⟨by decide, by decide⟩
  | some url =>
    dsimp only [Option.getD]
    by_cases he : (url == "") = true
    · rw [if_pos he]
      have : url = "" := by simpa using he
      subst this
      exact ⟨by decide, by decide⟩
    · rw [if_neg he]
      by_cases ha : (image_extensions.any fun ext => strEndsWith url ext) = true
      · rw [if_pos ha]
        simp [ha]
      · rw [if_neg ha]
        by_cases hi : (strWithin "imgur.com/a/" url || strWithin "imgur.com/gallery/" url) = true
        · rw [if_pos hi]
          simp [hi]
        · rw [if_neg hi]
          simp [Bool.or_eq_true] at ha hi ⊢
          exact ⟨ha, hi⟩

/-- C2 (code bug): when the cache store is unavailable (every cache
operation raises), `search_filtered_hot_posts` does not behave as a
cache miss: the cache read happens before the `try` block, so the
exception propagates to the caller instead of the crawl result being
returned. -/
theorem cache_down_propagates (subreddit : Subreddit) (now : Int)
    (cache : RedisState) (nm : String) (d m : Int) (l : Nat)
    (h : cache.available = false) :
    (search_filtered_hot_posts subreddit now cache nm d m l).result =
      .error "connection error" := by
  unfold search_filtered_hot_posts get_cache
  rw [h]
  rfl

/-- Witness for C2: a concrete query against a down cache store
propagates the connection error. -/
theorem cache_down_propagates_witness :
    (search_filtered_hot_posts errSub 0 downCache "x" 1 0 5).result =
      .error "connection error" :=
  cache_down_propagates errSub 0 downCache "x" 1 0 5 rfl

/-- C1 (amended): a cached empty result does round-trip through the
cache layer as an empty sequence (`get_cache` returns it, distinct
from the absent `none`), but `search_filtered_hot_posts` treats the
cached empty sequence as a miss: a second call within the TTL
triggers a fresh crawl of the source instead of being served from the
cache. -/
theorem cached_empty_treated_as_miss (subreddit : Subreddit) (now : Int)
    (cache : RedisState) (nm : String) (d m : Int) (l : Nat)
    (ha : cache.available = true)
    (hs : cache.store (cacheKey nm d m l) = some []) :
    get_cache cache (cacheKey nm d m l) = .ok (some []) ∧
    (search_filtered_hot_posts subreddit now cache nm d m l).crawled = true := by
  have hget : get_cache cache (cacheKey nm d m l) = .ok (some []) := by
    unfold get_cache
    rw [ha, hs]
    rfl
  refine ⟨hget, ?_⟩
  unfold search_filtered_hot_posts
  rw [hget]
  dsimp only
  rw [if_neg (by decide)]
  cases hset : set_cache cache (cacheKey nm d m l)
      (mergeResults (crawlBatches subreddit now d m l) l) with
  | error e => rfl
  | ok cache2 => rfl

/-- C1 counterexample: a concrete query whose cached value is the
empty sequence (present in the store, within TTL, returned by
`get_cache` as an empty sequence) is nevertheless not served from the
cache — the call crawls the source afresh. -/
theorem cached_empty_claim_false :
    get_cache cacheWithEmpty (cacheKey "x" 1 0 5) = .ok (some []) ∧
    (search_filtered_hot_posts errSub 1000 cacheWithEmpty "x" 1 0 5).crawled = true :=
  ⟨rfl, by decide⟩

/-- Witness for the amended C1 at a concrete cache and source. -/
theorem cached_empty_treated_as_miss_witness :
    get_cache cacheWithEmpty (cacheKey "x" 1 0 5) = .ok (some []) ∧
    (search_filtered_hot_posts oneSub 1000 cacheWithEmpty "x" 1 0 5).crawled = true :=
  cached_empty_treated_as_miss oneSub 1000 cacheWithEmpty "x" 1 0 5 rfl rfl

/-- A successful cache write happened on an available store and wrote
exactly the given value under the given key. -/
theorem set_cache_ok (r : RedisState) (key : String) (v : List Post)
    (r2 : RedisState) (h : set_cache r key v = .ok r2) :
    r2.available = true ∧
    ∀ k, r2.store k = if k == key then some v else r.store k := by
  unfold set_cache at h
  split at h
  · rename_i hav
    injection h with h2
    subst h2
    exact ⟨hav, fun k => rfl⟩
  · cases h

/-- Reading back a key just written returns the written value. -/
theorem get_cache_after_set (r : RedisState) (key : String) (v : List Post)
    (r2 : RedisState) (h : set_cache r key v = .ok r2) :
    get_cache r2 key = .ok (some v) := by
  obtain ⟨hav, hstore⟩ := set_cache_ok r key v r2 h
  unfold get_cache
  rw [hav, hstore key]
  simp

/-- C9 (amended): when a crawling call of `search_filtered_hot_posts`
returns a non-empty result, a second call with the same query within
the TTL returns the identical sequence and does not invoke the content
source at all; when the first result is empty, the second call crawls
the source again (the cached empty value is treated as a miss). -/
theorem second_call_served_from_cache (subreddit : Subreddit) (now now2 : Int)
    (cache : RedisState) (nm : String) (d m : Int) (l : Nat) (res : List Post)
    (hc : (search_filtered_hot_posts subreddit now cache nm d m l).crawled = true)
    (hr : (search_filtered_hot_posts subreddit now cache nm d m l).result = .ok res)
    (hne : res ≠ []) :
    (search_filtered_hot_posts subreddit now2
      (search_filtered_hot_posts subreddit now cache nm d m l).cache nm d m l).result
        = .ok res ∧
    (search_filtered_hot_posts subreddit now2
      (search_filtered_hot_posts subreddit now cache nm d m l).cache nm d m l).crawled
        = false := by
  unfold search_filtered_hot_posts at hc hr ⊢
  cases hg : get_cache cache (cacheKey nm d m l) with
  | error e =>
    rw [hg] at hc
    simp at hc
  | ok cached =>
    rw [hg] at hc hr
    dsimp only at hc hr ⊢
    by_cases ht : pyTruthy cached
    · rw [if_pos ht] at hc
      simp at hc
    · rw [if_neg ht] at hc hr ⊢
      cases hset : set_cache cache (cacheKey nm d m l)
          (mergeResults (crawlBatches subreddit now d m l) l) with
      | error e =>
        rw [hset] at hr
        dsimp only at hr
        injection hr with hr2
        exact absurd hr2.symm hne
      | ok cache2 =>
        rw [hset] at hr
        dsimp only at hr ⊢
        injection hr with hr2
        have hget2 := get_cache_after_set cache (cacheKey nm d m l) _ cache2 hset
        rw [hr2] at hget2
        rw [hget2]
        dsimp only
        have hpt : pyTruthy (some res) = true := by
          cases res with
          | nil => exact absurd rfl hne
          | cons a as => rfl
        rw [if_pos hpt]
        exact ⟨rfl, rfl⟩

/-- C9 counterexample: a concrete query whose first call returns the
empty sequence; the second call within the TTL, with the upstream
unchanged, is not served from the cache — it consults the source
again (the claim's "does not invoke the content source client at all"
fails). -/
theorem second_call_claim_false :
    (search_filtered_hot_posts errSub 1000 emptyCache "x" 1 0 5).result = .ok [] ∧
    (search_filtered_hot_posts errSub 1000
      (search_filtered_hot_posts errSub 1000 emptyCache "x" 1 0 5).cache
      "x" 1 0 5).crawled = true :=
  ⟨rfl, by decide⟩

/-- Witness for the amended C9 at a concrete source and query with a
non-empty first result. -/
theorem second_call_served_from_cache_witness :
    (search_filtered_hot_posts oneSub 2000
      (search_filtered_hot_posts oneSub 1000 emptyCache "x" 1 0 1).cache
      "x" 1 0 1).result = .ok [makePostData goodRaw] ∧
    (search_filtered_hot_posts oneSub 2000
      (search_filtered_hot_posts oneSub 1000 emptyCache "x" 1 0 1).cache
      "x" 1 0 1).crawled = false :=
  second_call_served_from_cache oneSub 1000 2000 emptyCache "x" 1 0 1
    [makePostData goodRaw] (by decide) rfl (by decide)

/-- Under a source whose every page holds only out-of-window items,
each loop iteration increments both the no-valid counter and the
safety counter. -/
theorem crawlStep_allOld (subreddit : Subreddit) (sort_type : String)
    (time_filter : Option String) (cutoff m : Int) (limit : Nat)
    (hold : ∀ (cur : Option String) (n : Nat),
      ∀ q ∈ fetchPosts subreddit sort_type time_filter n cur, q.created_utc < cutoff)
    (st : CrawlState) :
    (crawlStep subreddit sort_type time_filter cutoff m limit st).no_valid_count
      = st.no_valid_count + 1 ∧
    (crawlStep subreddit sort_type time_filter cutoff m limit st).safety_counter
      = st.safety_counter + 1 := by
  simp only [crawlStep]
  cases hfetch : fetchPosts subreddit sort_type time_filter
      (min 100 (limit - st.batch_posts.length)) st.after with
  | nil => exact ⟨rfl, rfl⟩
  | cons p rest =>
    have hp : p.created_utc < cutoff :=
      hold st.after _ p (by rw [hfetch]; exact List.mem_cons_self _ _)
    have hscan : processPosts cutoff m (p :: rest) none false st.batch_posts
        = (st.batch_posts, false) := by
      simp only [processPosts]
      rw [if_neg (not_le.mpr hp)]
      rw [if_pos hp]
    rw [hscan]
    exact ⟨rfl, rfl⟩

/-- Under an all-out-of-window source, the final safety counter is
bounded by the starting counter plus the remaining no-valid budget. -/
theorem crawlLoop_safety_bound (subreddit : Subreddit) (sort_type : String)
    (time_filter : Option String) (cutoff m : Int) (limit max_no_valid : Nat)
    (hold : ∀ (cur : Option String) (n : Nat),
      ∀ q ∈ fetchPosts subreddit sort_type time_filter n cur, q.created_utc < cutoff) :
    ∀ (fuel : Nat) (st : CrawlState),
      (crawlLoop subreddit sort_type time_filter cutoff m limit max_no_valid
          fuel st).safety_counter
        ≤ st.safety_counter + (max_no_valid - st.no_valid_count) := by
  intro fuel
  induction fuel with
  | zero => intro st; exact Nat.le_add_right _ _
  | succ fuel ih =>
    intro st
    simp only [crawlLoop]
    by_cases hguard : st.batch_posts.length < limit ∧ st.no_valid_count < max_no_valid
    · rw [if_pos hguard]
      obtain ⟨hlen, hnvlt⟩ := hguard
      obtain ⟨hnv, hsc⟩ := crawlStep_allOld subreddit sort_type time_filter
        cutoff m limit hold st
      have h := ih (crawlStep subreddit sort_type time_filter cutoff m limit st)
      rw [hnv, hsc] at h
      have h2 : (st.safety_counter + 1) + (max_no_valid - (st.no_valid_count + 1))
          ≤ st.safety_counter + (max_no_valid - st.no_valid_count) := by omega
      exact le_trans h h2
    · rw [if_neg hguard]
      exact Nat.le_add_right _ _

/-- C4 (amended): the consecutive no-valid-page counter increments on
a page with zero raw items, and on a page whose scan reaches no
in-window item — the in-order scan stops at the first item older than
the cutoff, so a page whose first item is out of window increments the
counter even when a later item of the page is in window; the counter
resets to 0 when the scan reaches an in-window item (its first item is
in window), regardless of the score filter. Consequently, for a source
yielding only out-of-window items on every page under a lenient
threshold (`min_upvotes ≤ 50`), the crawler stops after at most 6 loop
iterations rather than running to the 60-iteration cap. -/
theorem page_counter_and_termination (subreddit : Subreddit) (sort_type : String)
    (time_filter : Option String) (cutoff m : Int) (limit : Nat) :
    (∀ st : CrawlState,
      fetchPosts subreddit sort_type time_filter
        (min 100 (limit - st.batch_posts.length)) st.after = [] →
      (crawlStep subreddit sort_type time_filter cutoff m limit st).no_valid_count
        = st.no_valid_count + 1) ∧
    (∀ (st : CrawlState) (p : RawPost) (rest : List RawPost),
      fetchPosts subreddit sort_type time_filter
        (min 100 (limit - st.batch_posts.length)) st.after = p :: rest →
      p.created_utc < cutoff →
      (crawlStep subreddit sort_type time_filter cutoff m limit st).no_valid_count
        = st.no_valid_count + 1) ∧
    (∀ (st : CrawlState) (p : RawPost) (rest : List RawPost),
      fetchPosts subreddit sort_type time_filter
        (min 100 (limit - st.batch_posts.length)) st.after = p :: rest →
      cutoff ≤ p.created_utc →
      (crawlStep subreddit sort_type time_filter cutoff m limit st).no_valid_count
        = 0) ∧
    (m ≤ 50 →
      (∀ (cur : Option String) (n : Nat),
        ∀ q ∈ fetchPosts subreddit sort_type time_filter n cur,
          q.created_utc < cutoff) →
      (crawlWithStrategyState subreddit sort_type time_filter cutoff m
          limit).safety_counter ≤ 6) := by
  refine ⟨?_, ?_, ?_, ?_⟩
  · intro st hfetch
    simp only [crawlStep]
    rw [hfetch]
  · intro st p rest hfetch hlt
    simp only [crawlStep]
    rw [hfetch]
    have hscan : processPosts cutoff m (p :: rest) none false st.batch_posts
        = (st.batch_posts, false) := by
      simp only [processPosts]
      rw [if_neg (not_le.mpr hlt)]
      rw [if_pos hlt]
    rw [hscan]
    rfl
  · intro st p rest hfetch hge
    simp only [crawlStep]
    rw [hfetch]
    have hsnd : (processPosts cutoff m (p :: rest) none false st.batch_posts).2
        = true := by
      simp only [processPosts]
      rw [if_pos hge]
      exact processPosts_snd_true cutoff m rest _ _
    dsimp only
    rw [hsnd]
    rfl
  · intro hm hold
    simp only [crawlWithStrategyState]
    rw [if_pos hm, if_pos hm]
    simpa using crawlLoop_safety_bound subreddit sort_type time_filter cutoff m
      limit 6 hold 60
      { batch_posts := [], after := none, safety_counter := 0, no_valid_count := 0 }

/-- C4 counterexample: a page that contains an in-window item (its
second item, with respect to cutoff 100) after an out-of-window first
item does not reset the counter — the scan breaks at the first
out-of-window item, and under a lenient threshold the no-valid counter
increments from 0 to 1 instead of resetting to 0. -/
theorem page_counter_claim_false :
    (mixedPage.any fun p => decide ((100 : Int) ≤ p.created_utc)) = true ∧
    (0 : Int) ≤ 50 ∧
    (crawlStep mixedSub "new" none 100 0 10 st0).no_valid_count = 1 :=
  ⟨by decide, by decide, by decide⟩

/-- Witness for the amended C4: a concrete increment on an empty page,
a concrete increment on a mixed page, a concrete reset on an in-window
page, and the concrete six-iteration termination bound. -/
theorem page_counter_and_termination_witness :
    (crawlStep errSub "new" none 100 0 10 st0).no_valid_count = 1 ∧
    (crawlStep mixedSub "new" none 100 0 10 st0).no_valid_count = 1 ∧
    (crawlStep oneSub "new" none 100 0 10 st0).no_valid_count = 0 ∧
    (crawlWithStrategyState errSub "new" none 100 0 10).safety_counter ≤ 6 := by
  refine ⟨?_, ?_, ?_, ?_⟩
  · exact (page_counter_and_termination errSub "new" none 100 0 10).1 st0 rfl
  · exact (page_counter_and_termination mixedSub "new" none 100 0 10).2.1 st0
      oldRaw [newRaw] rfl (by decide)
  · exact (page_counter_and_termination oneSub "new" none 100 0 10).2.2.1 st0
      goodRaw [] rfl (by decide)
  · refine (page_counter_and_termination errSub "new" none 100 0 10).2.2.2
      (by decide) ?_
    intro cur n q hq
    have hfe : fetchPosts errSub "new" none n cur = [] := rfl
    rw [hfe] at hq
    simp at hq

end CrawlCore
